import Mathlib

/-!
Shallow embedding of the homework_bot repository (src/homework.py and
src/exceptions.py): a polling notifier that queries a homework-status API,
validates the JSON response, derives a human-readable verdict and forwards
notifications, de-duplicating by last-seen state.

Python values flowing through the program are JSON-shaped; we embed them as
the inductive `JValue`. Python exceptions become the inductive `PyError`
(one constructor per distinct exception kind raised by the program, each
carrying its message text); functions that can raise return `Except PyError`.
`jbeq` embeds the Python `==` on these values; it is proved to coincide with
structural equality (Python dict equality ignores key order, but every
comparison the program makes is between values built in the same order, so
structural equality is faithful here). Network and messenger behaviour is an
explicit environment input (`HttpOutcome`, the send-failure flag).
-/

/-- A JSON-shaped Python value: None, bool, int, str, list, dict. -/
inductive JValue where
  | jnull : JValue
  | jbool : Bool → JValue
  | jnum : Int → JValue
  | jstr : String → JValue
  | jarr : List JValue → JValue
  | jobj : List (String × JValue) → JValue

mutual

/-- Python equality (==) on JSON-shaped values. -/
def jbeq : JValue → JValue → Bool
  | .jnull, .jnull => true
  | .jbool a, .jbool b => a == b
  | .jnum a, .jnum b => a == b
  | .jstr a, .jstr b => a == b
  | .jarr a, .jarr b => jbeqList a b
  | .jobj a, .jobj b => jbeqFields a b
  | _, _ => false

/-- Python equality on lists of values. -/
def jbeqList : List JValue → List JValue → Bool
  | [], [] => true
  | x :: xs, y :: ys => jbeq x y && jbeqList xs ys
  | _, _ => false

/-- Python equality on dict items. -/
def jbeqFields : List (String × JValue) → List (String × JValue) → Bool
  | [], [] => true
  | (k, v) :: xs, (l, w) :: ys => k == l && jbeq v w && jbeqFields xs ys
  | _, _ => false

end

mutual

/-- The embedded Python == coincides with structural equality. -/
theorem jbeq_iff_eq : ∀ a b : JValue, jbeq a b = true ↔ a = b
  | .jnull, .jnull => by simp [jbeq]
  | .jnull, .jbool _ => by simp [jbeq]
  | .jnull, .jnum _ => by simp [jbeq]
  | .jnull, .jstr _ => by simp [jbeq]
  | .jnull, .jarr _ => by simp [jbeq]
  | .jnull, .jobj _ => by simp [jbeq]
  | .jbool _, .jnull => by simp [jbeq]
  | .jbool _, .jbool _ => by simp [jbeq]
  | .jbool _, .jnum _ => by simp [jbeq]
  | .jbool _, .jstr _ => by simp [jbeq]
  | .jbool _, .jarr _ => by simp [jbeq]
  | .jbool _, .jobj _ => by simp [jbeq]
  | .jnum _, .jnull => by simp [jbeq]
  | .jnum _, .jbool _ => by simp [jbeq]
  | .jnum _, .jnum _ => by simp [jbeq]
  | .jnum _, .jstr _ => by simp [jbeq]
  | .jnum _, .jarr _ => by simp [jbeq]
  | .jnum _, .jobj _ => by simp [jbeq]
  | .jstr _, .jnull => by simp [jbeq]
  | .jstr _, .jbool _ => by simp [jbeq]
  | .jstr _, .jnum _ => by simp [jbeq]
  | .jstr _, .jstr _ => by simp [jbeq]
  | .jstr _, .jarr _ => by simp [jbeq]
  | .jstr _, .jobj _ => by simp [jbeq]
  | .jarr _, .jnull => by simp [jbeq]
  | .jarr _, .jbool _ => by simp [jbeq]
  | .jarr _, .jnum _ => by simp [jbeq]
  | .jarr _, .jstr _ => by simp [jbeq]
  | .jarr a, .jarr b => by rw [jbeq]; rw [jbeqList_iff_eq a b]; simp
  | .jarr _, .jobj _ => by simp [jbeq]
  | .jobj _, .jnull => by simp [jbeq]
  | .jobj _, .jbool _ => by simp [jbeq]
  | .jobj _, .jnum _ => by simp [jbeq]
  | .jobj _, .jstr _ => by simp [jbeq]
  | .jobj _, .jarr _ => by simp [jbeq]
  | .jobj a, .jobj b => by rw [jbeq]; rw [jbeqFields_iff_eq a b]; simp

/-- List-level Python == coincides with structural equality. -/
theorem jbeqList_iff_eq : ∀ a b : List JValue, jbeqList a b = true ↔ a = b
  | [], [] => by simp [jbeqList]
  | [], _ :: _ => by simp [jbeqList]
  | _ :: _, [] => by simp [jbeqList]
  | x :: xs, y :: ys => by
      rw [jbeqList]
      simp [jbeq_iff_eq x y, jbeqList_iff_eq xs ys]

/-- Dict-item-level Python == coincides with structural equality. -/
theorem jbeqFields_iff_eq : ∀ a b : List (String × JValue), jbeqFields a b = true ↔ a = b
  | [], [] => by simp [jbeqFields]
  | [], _ :: _ => by simp [jbeqFields]
  | _ :: _, [] => by simp [jbeqFields]
  | (k, v) :: xs, (l, w) :: ys => by
      rw [jbeqFields]
      simp [jbeq_iff_eq v w, jbeqFields_iff_eq xs ys, and_assoc]

end

instance : DecidableEq JValue := fun a b => decidable_of_iff _ (jbeq_iff_eq a b)

instance : BEq JValue := ⟨jbeq⟩

/-- A single ASCII apostrophe, as Python repr wraps around strings. -/
def pyQuote : String := String.singleton (Char.ofNat 39)

mutual

/-- Python repr of a JSON-shaped value (what str() of an exception shows for
a KeyError key, and how container elements are rendered). -/
def pyRepr : JValue → String
  | .jnull => "None"
  | .jbool true => "True"
  | .jbool false => "False"
  | .jnum n => toString n
  | .jstr s => pyQuote ++ s ++ pyQuote
  | .jarr xs => "[" ++ pyReprList xs ++ "]"
  | .jobj fs => "\x7b" ++ pyReprFields fs ++ "\x7d"

/-- Comma-separated reprs of the elements of a list. -/
def pyReprList : List JValue → String
  | [] => ""
  | [x] => pyRepr x
  | x :: xs => pyRepr x ++ ", " ++ pyReprList xs

/-- Comma-separated reprs of the items of a dict. -/
def pyReprFields : List (String × JValue) → String
  | [] => ""
  | [(k, v)] => pyQuote ++ k ++ pyQuote ++ ": " ++ pyRepr v
  | (k, v) :: fs => pyQuote ++ k ++ pyQuote ++ ": " ++ pyRepr v ++ ", " ++ pyReprFields fs

end

/-- Python str of a JSON-shaped value, as an f-string embeds it. -/
def pyStr : JValue → String
  | .jstr s => s
  | v => pyRepr v

/-- Python str of an optional value (dict.get may produce None). -/
def pyStrOpt : Option JValue → String
  | none => "None"
  | some v => pyStr v

/-- The distinct exception kinds the program raises or propagates: the
classes of src/exceptions.py that actually reach a caller, plus the built-in
KeyError, TypeError and AttributeError. Each carries its message text.
StatusIsNotEqualTo200 has no constructor because get_api_answer raises it
inside its own try-block and immediately converts it to EndPointUnavailable,
so it never reaches a caller. -/
inductive PyError where
  | keyError : String → PyError
  | typeError : String → PyError
  | attributeError : String → PyError
  | statusUnknown : String → PyError
  | keyNotFound : String → PyError
  | endPointUnavailable : String → PyError
  | responseFormatIsNotJson : String → PyError
deriving DecidableEq

/-- The error taxonomy: which exception class a raised error belongs to. -/
inductive ErrorKind where
  | keyErrorK | typeErrorK | attributeErrorK | statusUnknownK
  | keyNotFoundK | endPointUnavailableK | responseFormatIsNotJsonK
deriving DecidableEq

/-- The exception class of a raised error. -/
def PyError.kind : PyError → ErrorKind
  | .keyError _ => .keyErrorK
  | .typeError _ => .typeErrorK
  | .attributeError _ => .attributeErrorK
  | .statusUnknown _ => .statusUnknownK
  | .keyNotFound _ => .keyNotFoundK
  | .endPointUnavailable _ => .endPointUnavailableK
  | .responseFormatIsNotJson _ => .responseFormatIsNotJsonK

/-- Python str(error). For a KeyError, str is the repr of the missing key, so
the message comes out wrapped in quotes; for the other classes it is the
message itself. -/
def PyError.text : PyError → String
  | .keyError m => pyQuote ++ m ++ pyQuote
  | .typeError m => m
  | .attributeError m => m
  | .statusUnknown m => m
  | .keyNotFound m => m
  | .endPointUnavailable m => m
  | .responseFormatIsNotJson m => m

/-- HOMEWORK_VERDICTS: the static verdict table (src/homework.py lines 25-29). -/
def HOMEWORK_VERDICTS : List (String × String) :=
  [("approved", "Работа проверена: ревьюеру всё понравилось. Ура!"),
   ("reviewing", "Работа взята на проверку ревьюером."),
   ("rejected", "Работа проверена: у ревьюера есть замечания.")]

/-- ENDPOINT constant (src/homework.py line 21). -/
def ENDPOINT : String :=
  "https://practicum.yandex.ru/api/user_api/homework_statuses/"

/-- str(HEADERS): the rendering of the authorization-header dict embedded in
the endpoint-unavailable message. The actual token value comes from the
process environment; it is modelled by the name of its variable. -/
def HEADERS_STR : String :=
  "\x7b" ++ pyQuote ++ "Authorization" ++ pyQuote ++ ": "
    ++ pyQuote ++ "OAuth PRACTICUM_TOKEN" ++ pyQuote ++ "\x7d"

/-- `HOMEWORK_VERDICTS[homework_status]` where homework_status is whatever
`homework.get('status')` produced (None when the key is absent). A string key
looks up the table and raises KeyError on a miss; None or another hashable
non-string value also raises KeyError; an unhashable value (list, dict)
raises TypeError instead, which the `except KeyError` clause does not catch. -/
def verdictLookup : Option JValue → Except PyError String
  | some (.jstr s) =>
    match HOMEWORK_VERDICTS.lookup s with
    | some v => .ok v
    | none => .error (.keyError s)
  | some (.jarr _) => .error (.typeError "unhashable type: list")
  | some (.jobj _) => .error (.typeError "unhashable type: dict")
  | some v => .error (.keyError (pyRepr v))
  | none => .error (.keyError "None")

/-- str(KeyError) for the verdict-table miss: the repr of the offending key
(quotes around a string key, plain rendering otherwise). It is what the
unknown-status message embeds. -/
def keyErrorStr : Option JValue → String
  | some (.jstr s) => pyQuote ++ s ++ pyQuote
  | some v => pyRepr v
  | none => "None"

/-- Python substring test, for `in` applied to a str. -/
def strContains (s pat : String) : Bool :=
  decide (pat.toList <:+: s.toList)

/-- parse_status (src/homework.py lines 119-141): given the homework record,
tests `homework_name in homework`; on a dict that is a key test, after which
both fields are read with .get (a missing status becomes None). The verdict
lookup wraps its KeyError into StatusUnknown carrying the str of that
KeyError; an unhashable status value propagates its TypeError uncaught. On a
non-dict argument `in` behaves per Python: substring test on a str,
membership on a list (a hit then fails at .get with AttributeError),
TypeError otherwise. -/
def parse_status (homework : JValue) : Except PyError String :=
  match homework with
  | .jobj fields =>
    if (fields.lookup "homework_name").isSome then
      let homework_name := fields.lookup "homework_name"
      let homework_status := fields.lookup "status"
      match verdictLookup homework_status with
      | .ok verdict =>
        .ok ("Изменился статус проверки работы \"" ++ pyStrOpt homework_name
              ++ "\". " ++ verdict)
      | .error (.keyError _) =>
        .error (.statusUnknown ("Неизвестный статус домашней работы: "
              ++ keyErrorStr homework_status))
      | .error e => .error e
    else
      .error (.keyError "Ключ homework_name не найден в информации о домашней работе")
  | .jstr s =>
    if strContains s "homework_name" then
      .error (.attributeError "str object has no attribute get")
    else
      .error (.keyError "Ключ homework_name не найден в информации о домашней работе")
  | .jarr xs =>
    if xs.contains (.jstr "homework_name") then
      .error (.attributeError "list object has no attribute get")
    else
      .error (.keyError "Ключ homework_name не найден в информации о домашней работе")
  | _ => .error (.typeError "argument is not iterable")

/-- check_response (src/homework.py lines 95-116): verifies the parsed
response is a dict, contains the key homeworks, and that the value under the
key is a list; returns that list. -/
def check_response (response : JValue) : Except PyError (List JValue) :=
  match response with
  | .jobj fields =>
    match fields.lookup "homeworks" with
    | some homework =>
      match homework with
      | .jarr xs => .ok xs
      | _ => .error (.typeError "Тип ключа homeworks не list")
    | none => .error (.keyNotFound "В ответе не обнаружен ключ homeworks")
  | _ => .error (.typeError "В ответе API не обнаружен dict")

/-- What the one HTTP request of an iteration does: either requests.get
raises (transport failure; the str of that exception is carried), or a
response arrives with a status code and a body. -/
inductive HttpBody where
  | notJson : String → HttpBody
  | json : JValue → HttpBody
deriving DecidableEq

/-- An HTTP response: status code plus body; the body either parses as JSON
or response.json() raises a decode error whose str is carried. -/
structure HttpResponse where
  status_code : Nat
  body : HttpBody
deriving DecidableEq

/-- Outcome of the requests.get call of one iteration. -/
inductive HttpOutcome where
  | transportError : String → HttpOutcome
  | response : HttpResponse → HttpOutcome
deriving DecidableEq

/-- The message of the EndPointUnavailable error (the f-string at
src/homework.py lines 79-83; the adjacent fragments concatenate with no
space, exactly as the source string literals do). -/
def unavailableMessage (timestamp : Option JValue) (errText : String) : String :=
  "Не доступен эндопоинт " ++ ENDPOINT ++ " со следующими параметрами"
    ++ "GET-запроса: " ++ HEADERS_STR ++ " и временной меткой "
    ++ pyStrOpt timestamp ++ "." ++ "Текст ошибки: " ++ errText

/-- get_api_answer (src/homework.py lines 63-92): issues the GET request.
A transport failure raises inside the try and becomes EndPointUnavailable.
A non-200 status code raises StatusIsNotEqualTo200 (whose str is empty, the
class being raised with no argument) inside the same try, so it is caught by
the same except clause and also becomes EndPointUnavailable. A 200 response
whose body fails response.json() becomes ResponseFormatIsNotJson; otherwise
the parsed JSON is returned. -/
def get_api_answer (timestamp : Option JValue) (outcome : HttpOutcome) :
    Except PyError JValue :=
  match outcome with
  | .transportError errText =>
    .error (.endPointUnavailable (unavailableMessage timestamp errText))
  | .response r =>
    if r.status_code ≠ 200 then
      .error (.endPointUnavailable (unavailableMessage timestamp ""))
    else
      match r.body with
      | .notJson errText =>
        .error (.responseFormatIsNotJson ("Ответ сервера не в формате json: " ++ errText))
      | .json v => .ok v

/-- The three environment variables read at module load
(src/homework.py lines 16-18); os.getenv yields None when a variable is
absent. -/
structure Config where
  PRACTICUM_TOKEN : Option String
  TELEGRAM_TOKEN : Option String
  TELEGRAM_CHAT_ID : Option String
deriving DecidableEq

/-- Python truthiness of an optional string: None and the empty string are
falsy. -/
def truthy : Option String → Bool
  | none => false
  | some s => !(s == "")

/-- check_tokens (src/homework.py lines 43-46): all three variables truthy. -/
def check_tokens (c : Config) : Bool :=
  truthy c.PRACTICUM_TOKEN && truthy c.TELEGRAM_TOKEN && truthy c.TELEGRAM_CHAT_ID

/-- send_message (src/homework.py lines 49-60): attempts
bot.send_message; any exception it raises is caught inside this function and
logged, so the function returns normally in both cases. The input says
whether the underlying send raises; the Bool result records whether the
message was delivered (it only feeds the log line). -/
def send_message (botSendFails : Bool) (message : String) : Except PyError Bool :=
  if botSendFails then .ok false else .ok true

/-- The mutable state of the main loop: the poll cursor (an int at startup,
later whatever response.get produced, possibly None) and the
last_error_homework dict (src/homework.py lines 154-158). -/
structure LoopState where
  timestamp : Option JValue
  last_error : Option String
  last_homework : Option (List JValue)
deriving DecidableEq

/-- The environment behaviour of one loop iteration: what the HTTP request
does and whether the messenger send raises. -/
structure IterEnv where
  httpOutcome : HttpOutcome
  botSendFails : Bool
deriving DecidableEq

/-- response.get(key): the response reaching this call has passed
check_response, hence is a dict; the non-dict case is unreachable there. -/
def objGet (response : JValue) (key : String) : Option JValue :=
  match response with
  | .jobj fields => fields.lookup key
  | _ => none

/-- The try-block of one loop iteration (src/homework.py lines 161-171):
query, validate, then notify when the list is truthy (non-empty) and differs
from last_homework, finally advance the cursor with response.get. Produces
the updated state and the list of change-notification messages passed to
send_message; an exception leaves the state untouched and propagates to the
except clause. -/
def tryBody (env : IterEnv) (st : LoopState) :
    Except PyError (LoopState × List String) :=
  match get_api_answer st.timestamp env.httpOutcome with
  | .error e => .error e
  | .ok response =>
    match check_response response with
    | .error e => .error e
    | .ok homework =>
      match homework with
      | [] => .ok ({ st with timestamp := objGet response "timestamp" }, [])
      | h0 :: rest =>
        if some (h0 :: rest) ≠ st.last_homework then
          match parse_status h0 with
          | .error e => .error e
          | .ok message =>
            match send_message env.botSendFails message with
            | .error e => .error e
            | .ok _ =>
              .ok ({ st with last_homework := some (h0 :: rest),
                             timestamp := objGet response "timestamp" }, [message])
        else
          .ok ({ st with timestamp := objGet response "timestamp" }, [])

/-- The result of one loop iteration: the new state, the change
notifications and the error notifications passed to send_message. -/
structure IterResult where
  state : LoopState
  changeSent : List String
  errorSent : List String
deriving DecidableEq

/-- One full iteration of the while-loop (src/homework.py lines 160-181):
the try body, then the except clause that de-duplicates error notifications
by str(error) against last_error. A raise escaping the except clause (only
possible if send_message could raise, which it cannot) would end the loop,
hence the outer Except. -/
def mainIteration (env : IterEnv) (st : LoopState) : Except PyError IterResult :=
  match tryBody env st with
  | .ok (st2, sent) => .ok { state := st2, changeSent := sent, errorSent := [] }
  | .error error =>
    if some error.text ≠ st.last_error then
      match send_message env.botSendFails ("Сбой в работе программы: " ++ error.text) with
      | .error e2 => .error e2
      | .ok _ =>
        .ok { state := { st with last_error := some error.text },
              changeSent := [],
              errorSent := ["Сбой в работе программы: " ++ error.text] }
    else
      .ok { state := st, changeSent := [], errorSent := [] }

/-- n iterations of the loop under a fixed environment behaviour, collecting
every error notification sent along the way. The .error case would mean the
loop died; it is provably unreachable. -/
def runIters (env : IterEnv) : Nat → LoopState → LoopState × List String
  | 0, st => (st, [])
  | n + 1, st =>
    match mainIteration env st with
    | .error _ => (st, [])
    | .ok r =>
      let rest := runIters env n r.state
      (rest.1, r.errorSent ++ rest.2)

/-- What main does before its loop: either the process exits (recording the
critical log, the exit status of the argument-less sys.exit(), and how many
network calls were made by then), or the loop is entered with the initial
state. -/
inductive StartupResult where
  | exited : Bool → Nat → Nat → StartupResult
  | loopEntered : LoopState → StartupResult
deriving DecidableEq

/-- main, up to entering the loop (src/homework.py lines 144-158): a failed
check_tokens logs critical and calls sys.exit() — with no argument, so the
exit status is 0 — before any network call; otherwise the loop starts with
timestamp = int(time.time()) and an empty last_error_homework dict. -/
def mainStartup (c : Config) (now : Int) : StartupResult :=
  if !check_tokens c then
    .exited true 0 0
  else
    .loopEntered { timestamp := some (.jnum now), last_error := none, last_homework := none }

/-- isinstance(x, dict). -/
def isDict : JValue → Bool
  | .jobj _ => true
  | _ => false

/-- isinstance(x, list). -/
def isList : JValue → Bool
  | .jarr _ => true
  | _ => false

/-- Claim C9: on the fixed record with homework_name proj1 and status
approved, parse_status returns exactly the fixed sentence template with the
name embedded and the verdict text of the approved entry of the table
appended. parse_status is a pure function of its argument, so the output is
identical across runs. -/
theorem parse_status_round_trip :
    parse_status (.jobj [("homework_name", .jstr "proj1"), ("status", .jstr "approved")])
      = .ok ("Изменился статус проверки работы \"proj1\". "
          ++ "Работа проверена: ревьюеру всё понравилось. Ура!")
    ∧ HOMEWORK_VERDICTS.lookup "approved"
      = some "Работа проверена: ревьюеру всё понравилось. Ура!" :=
  ⟨rfl, rfl⟩

/-- Claim C2 counterexample: on a record that has homework_name but no
status key, parse_status does not fail with the missing-field error the
claim requires; homework.get turns the absent status into None, the verdict
lookup raises KeyError on it, and that is converted into the unknown-status
error. -/
theorem parse_status_missing_status_counterexample :
    parse_status (.jobj [("homework_name", .jstr "proj1")])
      = .error (.statusUnknown "Неизвестный статус домашней работы: None")
    ∧ (PyError.statusUnknown "Неизвестный статус домашней работы: None").kind
      ≠ ErrorKind.keyErrorK :=
  ⟨rfl, by decide⟩

/-- Claim C2 (amended): parse_status fails with the distinguished
missing-field KeyError only when homework_name is absent; an absent status
key is treated like an unknown status (the None lookup misses the verdict
table), and a status string outside the table also yields the distinguished
unknown-status error; the two error classes are distinct. -/
theorem parse_status_error_classes (fields : List (String × JValue)) (s : String) :
    (fields.lookup "homework_name" = none →
      parse_status (.jobj fields)
        = .error (.keyError "Ключ homework_name не найден в информации о домашней работе"))
    ∧ ((fields.lookup "homework_name").isSome = true → fields.lookup "status" = none →
      parse_status (.jobj fields)
        = .error (.statusUnknown "Неизвестный статус домашней работы: None"))
    ∧ ((fields.lookup "homework_name").isSome = true →
        fields.lookup "status" = some (.jstr s) →
        HOMEWORK_VERDICTS.lookup s = none →
      parse_status (.jobj fields)
        = .error (.statusUnknown ("Неизвестный статус домашней работы: "
            ++ (pyQuote ++ s ++ pyQuote))))
    ∧ ErrorKind.keyErrorK ≠ ErrorKind.statusUnknownK := by
  refine ⟨?_, ?_, ?_, by decide⟩
  · intro h
    simp [parse_status, h]
  · intro h1 h2
    simp [parse_status, h1, h2, verdictLookup, keyErrorStr]
  · intro h1 h2 h3
    simp [parse_status, h1, h2, h3, verdictLookup, keyErrorStr]

/-- Witness for the amended C2 theorem at concrete records: a record with
only status, a record with only homework_name, and a record with an unknown
status string. -/
theorem parse_status_error_classes_witness :
    parse_status (.jobj [("status", .jstr "approved")])
      = .error (.keyError "Ключ homework_name не найден в информации о домашней работе")
    ∧ parse_status (.jobj [("homework_name", .jstr "x")])
      = .error (.statusUnknown "Неизвестный статус домашней работы: None")
    ∧ parse_status (.jobj [("homework_name", .jstr "x"), ("status", .jstr "weird")])
      = .error (.statusUnknown ("Неизвестный статус домашней работы: "
          ++ (pyQuote ++ "weird" ++ pyQuote))) :=
  ⟨(parse_status_error_classes [("status", .jstr "approved")] "weird").1 rfl,
   (parse_status_error_classes [("homework_name", .jstr "x")] "weird").2.1 rfl rfl,
   (parse_status_error_classes [("homework_name", .jstr "x"), ("status", .jstr "weird")]
      "weird").2.2.1 rfl rfl rfl⟩

/-- Claim C3 counterexample: a 500 response and a transport failure produce
errors of the same kind (EndPointUnavailable), because the non-200 raise
happens inside the try-block whose except clause wraps every exception into
EndPointUnavailable; the claim requires them to be distinct kinds. -/
theorem get_api_answer_kinds_counterexample :
    get_api_answer (some (.jnum 0)) (.response ⟨500, .json (.jobj [])⟩)
      = .error (.endPointUnavailable (unavailableMessage (some (.jnum 0)) ""))
    ∧ get_api_answer (some (.jnum 0)) (.transportError "timeout")
      = .error (.endPointUnavailable (unavailableMessage (some (.jnum 0)) "timeout"))
    ∧ (PyError.endPointUnavailable (unavailableMessage (some (.jnum 0)) "")).kind
      = (PyError.endPointUnavailable (unavailableMessage (some (.jnum 0)) "timeout")).kind :=
  ⟨rfl, rfl, rfl⟩

/-- Claim C3 (amended): get_api_answer maps its three failure modes to two
distinct error kinds: a transport-level failure and a non-200 status code
both become EndPointUnavailable, while a 200 body that fails JSON parsing
becomes the distinct ResponseFormatIsNotJson; a 200 JSON body is returned. -/
theorem get_api_answer_error_classification (ts : Option JValue)
    (errText jerr : String) (r : HttpResponse) (v : JValue) :
    get_api_answer ts (.transportError errText)
      = .error (.endPointUnavailable (unavailableMessage ts errText))
    ∧ (r.status_code ≠ 200 →
        get_api_answer ts (.response r)
          = .error (.endPointUnavailable (unavailableMessage ts "")))
    ∧ (r.status_code = 200 → r.body = .notJson jerr →
        get_api_answer ts (.response r)
          = .error (.responseFormatIsNotJson ("Ответ сервера не в формате json: " ++ jerr)))
    ∧ (r.status_code = 200 → r.body = .json v →
        get_api_answer ts (.response r) = .ok v)
    ∧ ErrorKind.endPointUnavailableK ≠ ErrorKind.responseFormatIsNotJsonK := by
  refine ⟨rfl, ?_, ?_, ?_, by decide⟩
  · intro h
    simp [get_api_answer, h]
  · intro h1 h2
    simp [get_api_answer, h1, h2]
  · intro h1 h2
    simp [get_api_answer, h1, h2]

/-- Witness for the amended C3 theorem at concrete outcomes: a 404, a 200
with an unparseable body, and a 200 with a JSON body. -/
theorem get_api_answer_error_classification_witness :
    get_api_answer (some (.jnum 7)) (.response ⟨404, .json (.jobj [])⟩)
      = .error (.endPointUnavailable (unavailableMessage (some (.jnum 7)) ""))
    ∧ get_api_answer (some (.jnum 7)) (.response ⟨200, .notJson "boom"⟩)
      = .error (.responseFormatIsNotJson ("Ответ сервера не в формате json: " ++ "boom"))
    ∧ get_api_answer (some (.jnum 7)) (.response ⟨200, .json (.jstr "ok")⟩)
      = .ok (.jstr "ok") :=
  ⟨(get_api_answer_error_classification (some (.jnum 7)) "" "boom"
      ⟨404, .json (.jobj [])⟩ (.jstr "ok")).2.1 (by decide),
   (get_api_answer_error_classification (some (.jnum 7)) "" "boom"
      ⟨200, .notJson "boom"⟩ (.jstr "ok")).2.2.1 rfl rfl,
   (get_api_answer_error_classification (some (.jnum 7)) "" "boom"
      ⟨200, .json (.jstr "ok")⟩ (.jstr "ok")).2.2.2.1 rfl rfl⟩

/-- Claim C7: check_response returns the homeworks value when the input is a
dict containing that key with a list value, and otherwise fails with an
error identifying which check failed: a dict-shape TypeError, a distinct
KeyNotFound for an absent key, and a distinct list-type TypeError; the three
errors are pairwise distinct. -/
theorem check_response_classification (response v : JValue)
    (fields : List (String × JValue)) (xs : List JValue) :
    (isDict response = false →
      check_response response = .error (.typeError "В ответе API не обнаружен dict"))
    ∧ (fields.lookup "homeworks" = none →
      check_response (.jobj fields)
        = .error (.keyNotFound "В ответе не обнаружен ключ homeworks"))
    ∧ (fields.lookup "homeworks" = some v → isList v = false →
      check_response (.jobj fields)
        = .error (.typeError "Тип ключа homeworks не list"))
    ∧ (fields.lookup "homeworks" = some (.jarr xs) →
      check_response (.jobj fields) = .ok xs)
    ∧ (PyError.typeError "В ответе API не обнаружен dict"
        ≠ PyError.keyNotFound "В ответе не обнаружен ключ homeworks"
      ∧ PyError.typeError "В ответе API не обнаружен dict"
        ≠ PyError.typeError "Тип ключа homeworks не list"
      ∧ PyError.keyNotFound "В ответе не обнаружен ключ homeworks"
        ≠ PyError.typeError "Тип ключа homeworks не list") := by
  refine ⟨?_, ?_, ?_, ?_, by decide, by decide, by decide⟩
  · intro h
    cases response <;> simp_all [check_response, isDict]
  · intro h
    simp [check_response, h]
  · intro h1 h2
    cases v <;> simp_all [check_response, isList]
  · intro h
    simp [check_response, h]

/-- Witness for the C7 theorem at concrete responses: a non-dict, a dict
without the key, a dict with a non-list value, and a dict with a list. -/
theorem check_response_classification_witness :
    check_response (.jarr []) = .error (.typeError "В ответе API не обнаружен dict")
    ∧ check_response (.jobj [("other", .jnull)])
      = .error (.keyNotFound "В ответе не обнаружен ключ homeworks")
    ∧ check_response (.jobj [("homeworks", .jnum 3)])
      = .error (.typeError "Тип ключа homeworks не list")
    ∧ check_response (.jobj [("homeworks", .jarr [.jnull])]) = .ok [.jnull] :=
  ⟨(check_response_classification (.jarr []) (.jnum 3) [] []).1 rfl,
   (check_response_classification (.jarr []) (.jnum 3) [("other", .jnull)] []).2.1 rfl,
   (check_response_classification (.jarr []) (.jnum 3) [("homeworks", .jnum 3)] []).2.2.1 rfl rfl,
   (check_response_classification (.jarr []) (.jnum 3)
      [("homeworks", .jarr [.jnull])] [.jnull]).2.2.2.1 rfl⟩

/-- Helper: the try-block under a successful poll returning an empty
homeworks list only advances the cursor. -/
theorem tryBody_ok_nil (ho : HttpOutcome) (b : Bool) (ts : Option JValue)
    (le : Option String) (lh : Option (List JValue)) (response : JValue)
    (hga : get_api_answer ts ho = .ok response)
    (hcr : check_response response = .ok []) :
    tryBody ⟨ho, b⟩ ⟨ts, le, lh⟩ = .ok (⟨objGet response "timestamp", le, lh⟩, []) := by
  simp [tryBody, hga, hcr]

/-- Helper: the try-block under a successful poll returning a non-empty
homeworks list notifies exactly when the list differs from last_homework and
parse_status succeeds on its first element. -/
theorem tryBody_ok_cons (ho : HttpOutcome) (b : Bool) (ts : Option JValue)
    (le : Option String) (lh : Option (List JValue)) (response : JValue)
    (h0 : JValue) (rest : List JValue)
    (hga : get_api_answer ts ho = .ok response)
    (hcr : check_response response = .ok (h0 :: rest)) :
    tryBody ⟨ho, b⟩ ⟨ts, le, lh⟩ =
      if some (h0 :: rest) ≠ lh then
        match parse_status h0 with
        | .error e => .error e
        | .ok message =>
          .ok (⟨objGet response "timestamp", le, some (h0 :: rest)⟩, [message])
      else
        .ok (⟨objGet response "timestamp", le, lh⟩, []) := by
  by_cases hne : some (h0 :: rest) ≠ lh
  · rw [if_pos hne]
    cases hps : parse_status h0 with
    | error e => simp [tryBody, hga, hcr, hne, hps]
    | ok message => cases b <;> simp [tryBody, hga, hcr, hne, hps, send_message]
  · rw [if_neg hne]
    simp [tryBody, hga, hcr, hne]

/-- Claim C8: an iteration whose valid response carries an empty homeworks
list sends no notification of any kind, raises no error, and leaves
everything but the cursor unchanged. -/
theorem empty_homeworks_iteration (ho : HttpOutcome) (b : Bool) (ts : Option JValue)
    (le : Option String) (lh : Option (List JValue)) (response : JValue)
    (hga : get_api_answer ts ho = .ok response)
    (hcr : check_response response = .ok []) :
    mainIteration ⟨ho, b⟩ ⟨ts, le, lh⟩
      = .ok ⟨⟨objGet response "timestamp", le, lh⟩, [], []⟩ := by
  have h := tryBody_ok_nil ho b ts le lh response hga hcr
  simp [mainIteration, h]

/-- Witness for the C8 theorem: a concrete 200 response with an empty
homeworks list makes the iteration advance the cursor and nothing else. -/
theorem empty_homeworks_iteration_witness :
    mainIteration
        ⟨.response ⟨200, .json (.jobj [("homeworks", .jarr []), ("timestamp", .jnum 5)])⟩, false⟩
        ⟨some (.jnum 1), none, none⟩
      = .ok ⟨⟨some (.jnum 5), none, none⟩, [], []⟩ :=
  empty_homeworks_iteration
    (.response ⟨200, .json (.jobj [("homeworks", .jarr []), ("timestamp", .jnum 5)])⟩)
    false (some (.jnum 1)) none none
    (.jobj [("homeworks", .jarr []), ("timestamp", .jnum 5)]) rfl rfl

/-- Claim C4 counterexample: a successful iteration whose response has no
timestamp key replaces the integer cursor by None (response.get returns None
and the assignment is unconditional), where the claim says the cursor is
never replaced by a non-timestamp value. -/
theorem cursor_none_counterexample :
    mainIteration ⟨.response ⟨200, .json (.jobj [("homeworks", .jarr [])])⟩, false⟩
        ⟨some (.jnum 100), none, none⟩
      = .ok ⟨⟨none, none, none⟩, [], []⟩
    ∧ (none : Option JValue) ≠ some (.jnum 100) :=
  ⟨rfl, by decide⟩

/-- Claim C4 (amended): an iteration whose try-block completes sets the
cursor unconditionally to response.get of the timestamp key — the server
value when the key is present and None when it is absent — and an iteration
that fails with an exception leaves the cursor unchanged. -/
theorem cursor_advance (ho : HttpOutcome) (b : Bool) (ts : Option JValue)
    (le : Option String) (lh : Option (List JValue)) (response : JValue)
    (p : LoopState × List String) (e : PyError) (r : IterResult) :
    (get_api_answer ts ho = .ok response →
      tryBody ⟨ho, b⟩ ⟨ts, le, lh⟩ = .ok p →
      p.1.timestamp = objGet response "timestamp")
    ∧ (tryBody ⟨ho, b⟩ ⟨ts, le, lh⟩ = .error e →
      mainIteration ⟨ho, b⟩ ⟨ts, le, lh⟩ = .ok r →
      r.state.timestamp = ts) := by
  constructor
  · intro hga htb
    cases hcr : check_response response with
    | error e2 => simp [tryBody, hga, hcr] at htb
    | ok hw =>
      cases hw with
      | nil =>
        rw [tryBody_ok_nil ho b ts le lh response hga hcr] at htb
        injection htb with h
        rw [← h]
      | cons h0 rest =>
        rw [tryBody_ok_cons ho b ts le lh response h0 rest hga hcr] at htb
        by_cases hne : some (h0 :: rest) ≠ lh
        · rw [if_pos hne] at htb
          cases hps : parse_status h0 with
          | error e2 => rw [hps] at htb; cases htb
          | ok message =>
            rw [hps] at htb
            injection htb with h
            rw [← h]
        · rw [if_neg hne] at htb
          injection htb with h
          rw [← h]
  · intro htb hmi
    by_cases hd : some (PyError.text e) ≠ le
    · cases b <;> simp [mainIteration, htb, hd, send_message] at hmi <;> rw [← hmi]
    · simp [mainIteration, htb, hd] at hmi
      rw [← hmi]

/-- Witness for the amended C4 theorem: a concrete successful iteration puts
response.get of timestamp into the cursor. -/
theorem cursor_advance_witness :
    ((⟨some (.jnum 9), none, none⟩, ([] : List String)) : LoopState × List String).1.timestamp
      = objGet (.jobj [("homeworks", .jarr []), ("timestamp", .jnum 9)]) "timestamp" :=
  (cursor_advance (.response ⟨200, .json (.jobj [("homeworks", .jarr []), ("timestamp", .jnum 9)])⟩)
      false (some (.jnum 1)) none none
      (.jobj [("homeworks", .jarr []), ("timestamp", .jnum 9)])
      (⟨some (.jnum 9), none, none⟩, []) (.keyError "") ⟨⟨none, none, none⟩, [], []⟩).1 rfl rfl

/-- Claim C1 counterexample: the loop compares the whole homeworks list to
the stored value, not the first element. With last_homework holding a
two-element list and a new valid response repeating only its first record, a
change notification is dispatched although homeworks[0] is unchanged from
the record previously notified about; the claim requires silence here. -/
theorem change_notification_counterexample :
    mainIteration
        ⟨.response ⟨200, .json (.jobj
            [("homeworks", .jarr [.jobj [("homework_name", .jstr "hw"),
                                         ("status", .jstr "approved")]]),
             ("timestamp", .jnum 5)])⟩, false⟩
        ⟨some (.jnum 0), none,
         some [.jobj [("homework_name", .jstr "hw"), ("status", .jstr "approved")],
               .jobj [("homework_name", .jstr "hw2"), ("status", .jstr "reviewing")]]⟩
      = .ok ⟨⟨some (.jnum 5), none,
              some [.jobj [("homework_name", .jstr "hw"), ("status", .jstr "approved")]]⟩,
             ["Изменился статус проверки работы \"hw\". Работа проверена: ревьюеру всё понравилось. Ура!"],
             []⟩
    ∧ List.head? [JValue.jobj [("homework_name", .jstr "hw"), ("status", .jstr "approved")]]
      = List.head? [JValue.jobj [("homework_name", .jstr "hw"), ("status", .jstr "approved")],
                    .jobj [("homework_name", .jstr "hw2"), ("status", .jstr "reviewing")]] :=
  ⟨rfl, rfl⟩

/-- Claim C1 (amended): with a valid response, a change notification is
dispatched iff the homeworks list is non-empty, the whole list differs from
the stored last_homework, and parse_status succeeds on the first element; in
that case the derived verdict for the first element is sent and the whole
list is stored as last-notified. When the list is empty or equal to the
stored list, no notification of any kind occurs; when parse_status fails,
the iteration takes the error path and no change notification occurs. -/
theorem change_notification_characterization (ho : HttpOutcome) (b : Bool)
    (ts : Option JValue) (le : Option String) (lh : Option (List JValue))
    (response : JValue) (hw : List JValue) (h0 : JValue) (rest : List JValue)
    (s : String) (e : PyError)
    (hga : get_api_answer ts ho = .ok response)
    (hcr : check_response response = .ok hw) :
    (hw = [] ∨ some hw = lh →
      mainIteration ⟨ho, b⟩ ⟨ts, le, lh⟩
        = .ok ⟨⟨objGet response "timestamp", le, lh⟩, [], []⟩)
    ∧ (hw = h0 :: rest → some hw ≠ lh → parse_status h0 = .ok s →
      mainIteration ⟨ho, b⟩ ⟨ts, le, lh⟩
        = .ok ⟨⟨objGet response "timestamp", le, some hw⟩, [s], []⟩)
    ∧ (hw = h0 :: rest → some hw ≠ lh → parse_status h0 = .error e →
      mainIteration ⟨ho, b⟩ ⟨ts, le, lh⟩
        = if some e.text ≠ le then
            .ok ⟨⟨ts, some e.text, lh⟩, [],
                 ["Сбой в работе программы: " ++ e.text]⟩
          else
            .ok ⟨⟨ts, le, lh⟩, [], []⟩) := by
  refine ⟨?_, ?_, ?_⟩
  · rintro (hnil | heq)
    · subst hnil
      have h := tryBody_ok_nil ho b ts le lh response hga hcr
      simp [mainIteration, h]
    · cases hw with
      | nil =>
        have h := tryBody_ok_nil ho b ts le lh response hga hcr
        simp [mainIteration, h]
      | cons x xs =>
        have h := tryBody_ok_cons ho b ts le lh response x xs hga hcr
        rw [if_neg (by simp [heq])] at h
        simp [mainIteration, h]
  · intro hcons hne hps
    subst hcons
    have h := tryBody_ok_cons ho b ts le lh response h0 rest hga hcr
    rw [if_pos hne, hps] at h
    simp [mainIteration, h]
  · intro hcons hne hps
    subst hcons
    have h := tryBody_ok_cons ho b ts le lh response h0 rest hga hcr
    rw [if_pos hne, hps] at h
    by_cases hd : some (PyError.text e) ≠ le
    · rw [if_pos hd]
      cases b <;> simp [mainIteration, h, hd, send_message]
    · rw [if_neg hd]
      simp [mainIteration, h, hd]

/-- Witness for the amended C1 theorem: a concrete first poll (stored list
empty) with one approved homework dispatches exactly one change
notification and stores the whole list. -/
theorem change_notification_characterization_witness :
    mainIteration
        ⟨.response ⟨200, .json (.jobj
            [("homeworks", .jarr [.jobj [("homework_name", .jstr "hw"),
                                         ("status", .jstr "approved")]]),
             ("timestamp", .jnum 7)])⟩, false⟩
        ⟨some (.jnum 0), none, none⟩
      = .ok ⟨⟨some (.jnum 7), none,
              some [.jobj [("homework_name", .jstr "hw"), ("status", .jstr "approved")]]⟩,
             ["Изменился статус проверки работы \"hw\". Работа проверена: ревьюеру всё понравилось. Ура!"],
             []⟩ :=
  (change_notification_characterization
      (.response ⟨200, .json (.jobj
          [("homeworks", .jarr [.jobj [("homework_name", .jstr "hw"),
                                       ("status", .jstr "approved")]]),
           ("timestamp", .jnum 7)])⟩)
      false (some (.jnum 0)) none none
      (.jobj [("homeworks", .jarr [.jobj [("homework_name", .jstr "hw"),
                                          ("status", .jstr "approved")]]),
              ("timestamp", .jnum 7)])
      [.jobj [("homework_name", .jstr "hw"), ("status", .jstr "approved")]]
      (.jobj [("homework_name", .jstr "hw"), ("status", .jstr "approved")]) []
      "Изменился статус проверки работы \"hw\". Работа проверена: ревьюеру всё понравилось. Ура!"
      (.keyError "") rfl rfl).2.1 rfl (by decide) rfl

/-- Claim C5: startup aborts — with the critical log, the status-0 exit of
the argument-less sys.exit(), and zero network calls — whenever one of the
three configuration values is missing (None) or empty, enters the loop
exactly when check_tokens passes, and once inside the loop every iteration
returns normally (every exception is caught), so the loop never terminates
of its own accord. -/
theorem startup_gate_and_liveness (c : Config) (now : Int) (env : IterEnv) (st : LoopState) :
    ((c.PRACTICUM_TOKEN = none ∨ c.PRACTICUM_TOKEN = some ""
      ∨ c.TELEGRAM_TOKEN = none ∨ c.TELEGRAM_TOKEN = some ""
      ∨ c.TELEGRAM_CHAT_ID = none ∨ c.TELEGRAM_CHAT_ID = some "") →
      mainStartup c now = .exited true 0 0)
    ∧ (check_tokens c = true →
      mainStartup c now = .loopEntered ⟨some (.jnum now), none, none⟩)
    ∧ (∃ r, mainIteration env st = .ok r) := by
  refine ⟨?_, ?_, ?_⟩
  · intro hd
    have hck : check_tokens c = false := by
      rcases hd with h | h | h | h | h | h <;> simp [check_tokens, truthy, h]
    simp [mainStartup, hck]
  · intro h
    simp [mainStartup, h]
  · obtain ⟨ho, b⟩ := env
    cases htb : tryBody ⟨ho, b⟩ st with
    | ok p => exact ⟨⟨p.1, p.2, []⟩, by simp [mainIteration, htb]⟩
    | error e =>
      by_cases hd : some (PyError.text e) ≠ st.last_error
      · refine ⟨⟨⟨st.timestamp, some e.text, st.last_homework⟩, [],
            ["Сбой в работе программы: " ++ e.text]⟩, ?_⟩
        cases b <;> simp [mainIteration, htb, hd, send_message]
      · exact ⟨⟨st, [], []⟩, by simp [mainIteration, htb, hd]⟩

/-- Witness for the C5 theorem: a concrete config with a missing first value
exits before any network call, and a fully populated one enters the loop. -/
theorem startup_gate_and_liveness_witness :
    mainStartup ⟨none, some "t", some "id"⟩ 42 = .exited true 0 0
    ∧ mainStartup ⟨some "a", some "b", some "c"⟩ 42
      = .loopEntered ⟨some (.jnum 42), none, none⟩ :=
  ⟨(startup_gate_and_liveness ⟨none, some "t", some "id"⟩ 42
      ⟨.transportError "x", false⟩ ⟨none, none, none⟩).1 (Or.inl rfl),
   (startup_gate_and_liveness ⟨some "a", some "b", some "c"⟩ 42
      ⟨.transportError "x", false⟩ ⟨none, none, none⟩).2.1 rfl⟩

/-- Helper: the try-block never reads last_error, so a failing try-block
fails identically after last_error is rewritten. -/
theorem tryBody_last_error_irrel (ho : HttpOutcome) (b : Bool) (ts : Option JValue)
    (le le2 : Option String) (lh : Option (List JValue)) (e : PyError)
    (h : tryBody ⟨ho, b⟩ ⟨ts, le, lh⟩ = .error e) :
    tryBody ⟨ho, b⟩ ⟨ts, le2, lh⟩ = .error e := by
  cases hga : get_api_answer ts ho with
  | error e2 =>
    simp [tryBody, hga] at h ⊢
    exact h
  | ok response =>
    cases hcr : check_response response with
    | error e2 =>
      simp [tryBody, hga, hcr] at h ⊢
      exact h
    | ok hw =>
      cases hw with
      | nil =>
        rw [tryBody_ok_nil ho b ts le lh response hga hcr] at h
        cases h
      | cons h0 rest =>
        rw [tryBody_ok_cons ho b ts le lh response h0 rest hga hcr] at h
        rw [tryBody_ok_cons ho b ts le2 lh response h0 rest hga hcr]
        by_cases hne : some (h0 :: rest) ≠ lh
        · rw [if_pos hne] at h ⊢
          cases hps : parse_status h0 with
          | error e3 => rw [hps] at h; exact h
          | ok message => rw [hps] at h; simp at h
        · rw [if_neg hne] at h
          cases h

/-- Helper: once last_error already holds the failing text, further
iterations under the same environment send nothing and change nothing. -/
theorem runIters_stable (ho : HttpOutcome) (b : Bool) (ts : Option JValue)
    (lh : Option (List JValue)) (e : PyError) (n : Nat)
    (h : tryBody ⟨ho, b⟩ ⟨ts, some (PyError.text e), lh⟩ = .error e) :
    runIters ⟨ho, b⟩ n ⟨ts, some e.text, lh⟩ = (⟨ts, some e.text, lh⟩, []) := by
  induction n with
  | zero => rfl
  | succ n ih =>
    have hmi : mainIteration ⟨ho, b⟩ ⟨ts, some e.text, lh⟩
        = .ok ⟨⟨ts, some e.text, lh⟩, [], []⟩ := by
      simp [mainIteration, h]
    simp [runIters, hmi, ih]

/-- Claim C6: when the try-block of an iteration raises, an error
notification is sent and the text recorded iff str(error) differs from
last_error; with the same environment failing identically every iteration,
a run of any length sends at most one error notification. -/
theorem error_deduplication (ho : HttpOutcome) (b : Bool) (ts : Option JValue)
    (le : Option String) (lh : Option (List JValue)) (e : PyError) (n : Nat)
    (h : tryBody ⟨ho, b⟩ ⟨ts, le, lh⟩ = .error e) :
    (some e.text ≠ le →
      mainIteration ⟨ho, b⟩ ⟨ts, le, lh⟩
        = .ok ⟨⟨ts, some e.text, lh⟩, [],
               ["Сбой в работе программы: " ++ e.text]⟩)
    ∧ (some e.text = le →
      mainIteration ⟨ho, b⟩ ⟨ts, le, lh⟩ = .ok ⟨⟨ts, le, lh⟩, [], []⟩)
    ∧ (runIters ⟨ho, b⟩ n ⟨ts, le, lh⟩).2.length ≤ 1 := by
  have hdiff : some (PyError.text e) ≠ le →
      mainIteration ⟨ho, b⟩ ⟨ts, le, lh⟩
        = .ok ⟨⟨ts, some e.text, lh⟩, [],
               ["Сбой в работе программы: " ++ e.text]⟩ := by
    intro hd
    cases b <;> simp [mainIteration, h, hd, send_message]
  have hsame : some (PyError.text e) = le →
      mainIteration ⟨ho, b⟩ ⟨ts, le, lh⟩ = .ok ⟨⟨ts, le, lh⟩, [], []⟩ := by
    intro hd
    subst hd
    simp [mainIteration, h]
  refine ⟨hdiff, hsame, ?_⟩
  by_cases hd : some (PyError.text e) = le
  · subst hd
    simp [runIters_stable ho b ts lh e n h]
  · cases n with
    | zero => simp [runIters]
    | succ n =>
      have htb2 : tryBody ⟨ho, b⟩ ⟨ts, some (PyError.text e), lh⟩ = .error e :=
        tryBody_last_error_irrel ho b ts le (some e.text) lh e h
      have hrest := runIters_stable ho b ts lh e n htb2
      simp [runIters, hdiff hd, hrest]

/-- Witness for the C6 theorem: a concrete run of three iterations that all
fail with the same transport error sends exactly one error notification,
recorded on the first iteration. -/
theorem error_deduplication_witness :
    mainIteration ⟨.transportError "boom", false⟩ ⟨some (.jnum 0), none, none⟩
      = .ok ⟨⟨some (.jnum 0), some (unavailableMessage (some (.jnum 0)) "boom"), none⟩, [],
             ["Сбой в работе программы: " ++ unavailableMessage (some (.jnum 0)) "boom"]⟩
    ∧ (runIters ⟨.transportError "boom", false⟩ 3 ⟨some (.jnum 0), none, none⟩).2.length ≤ 1 :=
  ⟨(error_deduplication (.transportError "boom") false (some (.jnum 0)) none none
      (.endPointUnavailable (unavailableMessage (some (.jnum 0)) "boom")) 3 rfl).1
      (Option.some_ne_none _),
   (error_deduplication (.transportError "boom") false (some (.jnum 0)) none none
      (.endPointUnavailable (unavailableMessage (some (.jnum 0)) "boom")) 3 rfl).2.2⟩

/-- Helper: the try-block result does not depend on whether the messenger
send fails, because send_message swallows the failure. -/
theorem tryBody_sendFails_irrel (ho : HttpOutcome) (st : LoopState) :
    tryBody ⟨ho, true⟩ st = tryBody ⟨ho, false⟩ st := by
  obtain ⟨ts, le, lh⟩ := st
  cases hga : get_api_answer ts ho with
  | error e => simp [tryBody, hga]
  | ok response =>
    cases hcr : check_response response with
    | error e => simp [tryBody, hga, hcr]
    | ok hw =>
      cases hw with
      | nil =>
        rw [tryBody_ok_nil ho true ts le lh response hga hcr,
            tryBody_ok_nil ho false ts le lh response hga hcr]
      | cons h0 rest =>
        rw [tryBody_ok_cons ho true ts le lh response h0 rest hga hcr,
            tryBody_ok_cons ho false ts le lh response h0 rest hga hcr]

/-- Claim C10: send_message returns normally whether or not the underlying
messenger call raises (the exception is swallowed inside it and only the
delivered flag differs), so the try-block and the whole iteration — state
updates (last_homework after a change notification, last_error after an
error notification) and the messages handed to send_message — are identical
under a failing and a succeeding send. -/
theorem send_failure_invisible (ho : HttpOutcome) (st : LoopState) (b : Bool) (m : String) :
    send_message b m = .ok !b
    ∧ tryBody ⟨ho, true⟩ st = tryBody ⟨ho, false⟩ st
    ∧ mainIteration ⟨ho, true⟩ st = mainIteration ⟨ho, false⟩ st := by
  have h2 := tryBody_sendFails_irrel ho st
  refine ⟨by cases b <;> rfl, h2, ?_⟩
  cases htb : tryBody ⟨ho, false⟩ st with
  | ok p => simp [mainIteration, h2, htb]
  | error e =>
    by_cases hd : some (PyError.text e) ≠ st.last_error
    · simp [mainIteration, h2, htb, hd, send_message]
    · simp [mainIteration, h2, htb, hd]
